import Mathlib

/-!
Verification development for the capture-and-relay pipeline of the
Dimensional Cortex browser extension
(src/dimensional_cortex/extension/chrome/{content_script,background,popup}.js).

The JavaScript is shallowly embedded: DOM queries become explicit input data
carried by a `Page` value, the mutation-observer callback becomes a pure
function from the capture flag, the page and a batch of mutation records to
the list of network effects it fires (plus an optional escaped exception),
and the background message listener becomes a pure function from the
eventual network outcome and the request to its observable outcome
(return value, HTTP post issued, eventual reply).
-/

namespace DimensionalCortex

/-- True when `needle` is a prefix of `hay`
(character lists). Helper for the substring test used by
`String.prototype.includes`. -/
def isPrefixList : List Char → List Char → Bool
  | [], _ => true
  | _ :: _, [] => false
  | a :: as, b :: bs => a == b && isPrefixList as bs

/-- True when `needle` occurs as a contiguous
substring of `hay`. -/
def containsSub (needle : List Char) : List Char → Bool
  | [] => isPrefixList needle []
  | c :: rest => isPrefixList needle (c :: rest) || containsSub needle rest

/-- Embedding of JavaScript `s.includes(sub)` for strings. -/
def strIncludes (s sub : String) : Bool :=
  containsSub sub.data s.data

/-- The fixed registry of known assistant hosts, as (tag, host) pairs, in the
order `detectPlatform` checks them (content_script.js lines 17-21). -/
def registry : List (String × String) :=
  [("chatgpt", "chat.openai.com"),
   ("claude", "claude.ai"),
   ("perplexity", "perplexity.ai")]

/-- Embedding of `detectPlatform` from content_script.js: substring match of the page
hostname against the known hosts, falling back to "unknown". -/
def detectPlatform (hostname : String) : String :=
  if strIncludes hostname "chat.openai.com" then "chatgpt"
  else if strIncludes hostname "claude.ai" then "claude"
  else if strIncludes hostname "perplexity.ai" then "perplexity"
  else "unknown"

/-- Character class `[a-zA-Z0-9-]` of the conversation-id regex
`/\/c\/([a-zA-Z0-9-]+)/` in content_script.js line 34. -/
def idChar (c : Char) : Bool :=
  c.isAlphanum || c == '-'

/-- Greedy run of `idChar` characters: the `+` of the capture group. -/
def takeIdRun : List Char → List Char
  | [] => []
  | c :: rest => if idChar c then c :: takeIdRun rest else []

/-- Embedding of `pathname.match(/\/c\/([a-zA-Z0-9-]+)/)`: scan left to right for the
first position where the literal `/c/` is followed by at least one
`[a-zA-Z0-9-]` character, and return the greedy capture group. -/
def findConvId : List Char → Option String
  | [] => none
  | c :: rest =>
    match rest with
    | c2 :: c3 :: d :: ds =>
      if c = '/' ∧ c2 = 'c' ∧ c3 = '/' ∧ idChar d then
        some (String.mk (d :: takeIdRun ds))
      else findConvId rest
    | _ => findConvId rest

/-- ASCII lowercasing of one character (the sender vocabulary the claude
branch lowercases is plain ASCII). -/
def toLowerChar (c : Char) : Char :=
  if c.isUpper then Char.ofNat (c.toNat + 32) else c

/-- Embedding of `s.toLowerCase()`. -/
def strToLower (s : String) : String :=
  String.mk (s.data.map toLowerChar)

/-- A `[data-message-author-role]` element on a ChatGPT page:
its `data-message-author-role` attribute value and the `textContent` of its
`.markdown` descendant (`none` when `querySelector` finds no such child). -/
structure ChatGPTMsgEl where
  authorRole : String
  markdownText : Option String
deriving DecidableEq

/-- A `[data-testid="message"]` element on a Claude page: the `textContent`
of its sender marker and of its text marker (`none` when absent). -/
structure ClaudeMsgEl where
  senderText : Option String
  messageText : Option String
deriving DecidableEq

/-- The page state the content script reads: address components, the clock
(`Date.now()` in milliseconds and `toISOString()`), and the results of the
two `querySelectorAll` calls of the extractor. -/
structure Page where
  hostname : String
  href : String
  pathname : String
  nowMs : Nat
  nowIso : String
  chatgptEls : List ChatGPTMsgEl
  claudeEls : List ClaudeMsgEl
deriving DecidableEq

/-- One entry of the snapshot's `messages` array. -/
structure Message where
  role : String
  content : String
deriving DecidableEq

/-- The conversation snapshot built by `extractConversationContext`. The
source initializes `conversation_id` to `null` and then unconditionally
overwrites it, so the field is a plain `String` here. -/
structure Context where
  platform : String
  url : String
  timestamp : String
  conversation_id : String
  messages : List Message
deriving DecidableEq

/-- Embedding of `urlMatch ? urlMatch[1] : conv_Date.now()` (content_script.js line 35):
the identifier segment captured by the regex, or the synthetic id. -/
def conversationIdOf (page : Page) : String :=
  match findConvId page.pathname.data with
  | some id => id
  | none => "conv_" ++ toString page.nowMs

/-- The chatgpt branch of the extractor (content_script.js lines 39-47):
push the raw `data-message-author-role` attribute and the `.markdown` text,
skipping elements with empty content. -/
def extractChatGPTMessages (els : List ChatGPTMsgEl) : List Message :=
  els.filterMap (fun el =>
    let content := el.markdownText.getD ""
    if content ≠ "" then some { role := el.authorRole, content := content }
    else none)

/-- Embedding of `msg.querySelector(sender)?.textContent.toLowerCase() || 'unknown'`. -/
def claudeRoleOf (senderText : Option String) : String :=
  match senderText with
  | none => "unknown"
  | some t => if strToLower t = "" then "unknown" else strToLower t

/-- The claude branch of the extractor (content_script.js lines 48-60):
role is "user" when the lowercased sender text contains "you" and
"assistant" otherwise; elements with empty content are skipped. -/
def extractClaudeMessages (els : List ClaudeMsgEl) : List Message :=
  els.filterMap (fun el =>
    let role := claudeRoleOf el.senderText
    let content := el.messageText.getD ""
    if content ≠ "" then
      some { role := if strIncludes role "you" then "user" else "assistant",
             content := content }
    else none)

/-- The platform dispatch of the extractor: platforms other than chatgpt
and claude (perplexity included) get no message extraction at all. -/
def extractMessages (page : Page) (platform : String) : List Message :=
  if platform = "chatgpt" then extractChatGPTMessages page.chatgptEls
  else if platform = "claude" then extractClaudeMessages page.claudeEls
  else []

/-- Embedding of `extractConversationContext(platform)` from content_script.js lines
25-63, as a function of the page state. It always returns a `Context`
record: the source has no `return null` path. -/
def extractConversationContext (page : Page) (platform : String) : Context :=
  { platform := platform
    url := page.href
    timestamp := page.nowIso
    conversation_id := conversationIdOf page
    messages := extractMessages page platform }

/-- Outcome of a `fetch`: either the promise rejects (network failure), or a
response arrives with a status code and a body whose `json()` either parses
to a value of type `α` or rejects (`none`). -/
inductive NetResult (α : Type)
  | failure
  | success (status : Nat) (parsed : Option α)
deriving DecidableEq

/-- Embedding of `response.ok`: status in the inclusive range 200-299. -/
def responseOk (status : Nat) : Bool :=
  200 ≤ status && status ≤ 299

/-- Value of the awaited `sendToCortex(data)` call in content_script.js
lines 66-86: the parsed body on a 2xx parseable response, `null` (here
`none`) on any caught error — non-2xx status or parse failure both throw
into the catch, a rejected fetch lands there too. -/
def sendToCortexResult {α : Type} : NetResult α → Option α
  | .failure => none
  | .success st parsed => if responseOk st then parsed else none

/-- The reply the background `enrichPrompt` handler eventually sends:
`{status:"ok", data}` or `{status:"error"}`. -/
inductive BgReply (α : Type)
  | ok (data : α)
  | error
deriving DecidableEq

/-- The reply value produced by the promise chain
`fetch(...).then(r => r.json()).then(data => ok).catch(err => error)` in
background.js lines 15-28. The HTTP status is never inspected. -/
def enrichReply {α : Type} : NetResult α → BgReply α
  | .failure => .error
  | .success _ none => .error
  | .success _ (some d) => .ok d

/-- A message arriving at the background listener. -/
structure BgRequest where
  action : String
  text : String
deriving DecidableEq

/-- Body of the POST to `/process_interaction` (background.js lines 9-12). -/
structure ServerPayload where
  text : String
  platform : String
deriving DecidableEq

/-- Observable outcome of one background listener invocation: the boolean
the listener returns (`true` keeps the reply channel open), the HTTP post it
issues, and the reply it eventually delivers via `sendResponse` (`none` when
`sendResponse` is never called). -/
structure BgOutcome (α : Type) where
  keepOpen : Bool
  post : Option (String × ServerPayload)
  reply : Option (BgReply α)
deriving DecidableEq

/-- The background `onMessage` listener (background.js lines 3-38) as a
function of the request and of the eventual network outcome. The
`pingServer` branch contains only a comment and `return true`. -/
def backgroundHandle {α : Type} (net : NetResult α) (req : BgRequest) : BgOutcome α :=
  if req.action = "enrichPrompt" then
    { keepOpen := true
      post := some ("http://127.0.0.1:8000/process_interaction",
                    { text := req.text, platform := "ChromeExtension_v2" })
      reply := some (enrichReply net) }
  else if req.action = "pingServer" then
    { keepOpen := true, post := none, reply := none }
  else
    { keepOpen := false, post := none, reply := none }

/-- A control message arriving at the content script listener. -/
structure CtrlRequest where
  action : String
  enabled : Bool
deriving DecidableEq

/-- Acknowledgment sent by the content script listener. -/
structure CtrlAck where
  status : String
deriving DecidableEq

/-- The content script `onMessage` listener (content_script.js lines 7-13):
new value of `isCapturing` and the acknowledgment sent, if any. Only
`action === "toggle"` touches the flag. -/
def handleControlMessage (isCapturing : Bool) (req : CtrlRequest) :
    Bool × Option CtrlAck :=
  if req.action = "toggle" then (req.enabled, some { status := "ok" })
  else (isCapturing, none)

deriving instance DecidableEq for Except

/-- A node delivered in `mutation.addedNodes`: its `nodeType` and the result
of querying it against a selector — either the list of selectors the node
is or contains, or a thrown exception (malformed DOM). -/
structure DomNode where
  nodeType : Nat
  matchQuery : Except String (List String)
deriving DecidableEq

/-- One MutationRecord of a batch. -/
structure MutationRec where
  addedNodes : List DomNode
deriving DecidableEq

/-- A network-visible effect fired from the page context. -/
inductive Effect
  | httpPost (endpoint : String) (body : Context)
  | sendRuntimeMessage (action : String) (text : String)
deriving DecidableEq

/-- Whether an effect is a direct HTTP post (as opposed to a runtime message
hop to the background context). -/
def isHttpPostEffect : Effect → Bool
  | .httpPost _ _ => true
  | .sendRuntimeMessage _ _ => false

/-- The content script's server address constant. -/
def CORTEX_SERVER : String := "http://localhost:5000"

/-- The `selectors` lookup table of the observer callback
(content_script.js lines 94-101): `undefined` for unknown platforms. -/
def selectorFor (platform : String) : Option String :=
  if platform = "chatgpt" then some ".markdown"
  else if platform = "claude" then some "[data-testid=\"message-text\"]"
  else if platform = "perplexity" then some ".prose"
  else none

/-- Process one mutation's `addedNodes` (inner `forEach` of the observer
callback): for each element node, query it against the selector — a thrown
query aborts the rest of the batch and escapes, since no handler surrounds
it — and on a match fire the `/ingest` post of the extracted snapshot. -/
def processNodes (sel : String) (ctx : Context) :
    List DomNode → List Effect × Option String
  | [] => ([], none)
  | n :: ns =>
    if n.nodeType = 1 then
      match n.matchQuery with
      | .error e => ([], some e)
      | .ok sels =>
        let here :=
          if sels.contains sel then
            [Effect.httpPost (CORTEX_SERVER ++ "/ingest") ctx]
          else []
        let rest := processNodes sel ctx ns
        (here ++ rest.1, rest.2)
    else processNodes sel ctx ns

/-- Process a list of MutationRecords (outer `forEach`): an exception from
one record's nodes skips all later records of the same delivery. -/
def processMutationRecs (sel : String) (ctx : Context) :
    List MutationRec → List Effect × Option String
  | [] => ([], none)
  | m :: ms =>
    let first := processNodes sel ctx m.addedNodes
    match first.2 with
    | some e => (first.1, some e)
    | none =>
      let rest := processMutationRecs sel ctx ms
      (first.1 ++ rest.1, rest.2)

/-- The MutationObserver callback (content_script.js lines 89-123) as a
function of the capture flag, the page and the delivered batch: the effects
it fires and the exception escaping it, if any. -/
def observerCallback (isCapturing : Bool) (page : Page)
    (muts : List MutationRec) : List Effect × Option String :=
  if !isCapturing then ([], none)
  else
    let platform := detectPlatform page.hostname
    match selectorFor platform with
    | none => ([], none)
    | some sel => processMutationRecs sel (extractConversationContext page platform) muts

/-! ### Concrete fixtures used by witnesses and counterexamples -/

/-- A Claude page at the address of the spec's end-to-end scenario, showing
one message element with sender "Claude" and text "Hello world". -/
def claudePage : Page :=
  { hostname := "claude.ai"
    href := "https://claude.ai/chat/xyz789"
    pathname := "/chat/xyz789"
    nowMs := 1700000000000
    nowIso := "2023-11-14T22:13:20.000Z"
    chatgptEls := []
    claudeEls := [{ senderText := some "Claude", messageText := some "Hello world" }] }

/-- The snapshot `claudePage` extracts. -/
def claudeCtx : Context :=
  extractConversationContext claudePage "claude"

/-- The claude response-marker selector. -/
def claudeSel : String := "[data-testid=\"message-text\"]"

/-- A mutation batch adding one element node containing a claude response
marker. -/
def claudeBatch : List MutationRec :=
  [{ addedNodes := [{ nodeType := 1, matchQuery := Except.ok [claudeSel] }] }]

/-- A Perplexity page with no extractable messages. -/
def perplexityPage : Page :=
  { hostname := "www.perplexity.ai"
    href := "https://www.perplexity.ai/search/new"
    pathname := "/search/new"
    nowMs := 1700000000000
    nowIso := "2023-11-14T22:13:20.000Z"
    chatgptEls := []
    claudeEls := [] }

/-- The snapshot `perplexityPage` extracts (its `messages` list is empty:
the extractor has no perplexity branch). -/
def perplexityCtx : Context :=
  extractConversationContext perplexityPage "perplexity"

/-- A mutation batch adding one element node containing a `.prose` marker. -/
def perplexityBatch : List MutationRec :=
  [{ addedNodes := [{ nodeType := 1, matchQuery := Except.ok [".prose"] }] }]

/-- A ChatGPT page whose message element carries the author role "system". -/
def gptPage : Page :=
  { hostname := "chat.openai.com"
    href := "https://chat.openai.com/c/abc123"
    pathname := "/c/abc123"
    nowMs := 1700000000001
    nowIso := "2023-11-14T22:13:20.001Z"
    chatgptEls := [{ authorRole := "system", markdownText := some "boot" }]
    claudeEls := [] }

/-- A page on no supported platform. -/
def unknownPage : Page :=
  { hostname := "example.com"
    href := "https://example.com/"
    pathname := "/"
    nowMs := 0
    nowIso := "1970-01-01T00:00:00.000Z"
    chatgptEls := []
    claudeEls := [] }

/-- A batch whose first added node throws on marker matching, followed by a
record that would have qualified. -/
def faultyBatch : List MutationRec :=
  [{ addedNodes := [{ nodeType := 1, matchQuery := Except.error "malformed DOM" }] },
   { addedNodes := [{ nodeType := 1, matchQuery := Except.ok [claudeSel] }] }]

/-! ### C9: platform identification -/

/-- C9: `detectPlatform` is a pure total function of the hostname matching
by substring against the fixed registry: whenever the hostname contains a
supported platform's host it returns the tag of such a platform, and when
it contains none of them it returns "unknown". -/
theorem c9_detect_platform (h : String) :
    ((∃ p, p ∈ registry ∧ strIncludes h p.2 = true) →
      ∃ p, p ∈ registry ∧ strIncludes h p.2 = true ∧ detectPlatform h = p.1) ∧
    (registry.all (fun p => ! strIncludes h p.2) = true →
      detectPlatform h = "unknown") := by
  constructor
  · rintro ⟨p, hp, hin⟩
    by_cases c1 : strIncludes h "chat.openai.com"
    · exact ⟨("chatgpt", "chat.openai.com"), by simp [registry], c1,
        by simp [detectPlatform, c1]⟩
    · by_cases c2 : strIncludes h "claude.ai"
      · exact ⟨("claude", "claude.ai"), by simp [registry], c2,
          by simp [detectPlatform, c1, c2]⟩
      · by_cases c3 : strIncludes h "perplexity.ai"
        · exact ⟨("perplexity", "perplexity.ai"), by simp [registry], c3,
            by simp [detectPlatform, c1, c2, c3]⟩
        · simp [registry] at hp
          rcases hp with h1 | h1 | h1 <;> subst h1 <;> simp_all
  · intro hall
    simp [registry] at hall
    obtain ⟨c1, c2, c3⟩ := hall
    simp [detectPlatform, c1, c2, c3]

/-- C9 witness: concrete hostnames on both sides of the registry. -/
theorem c9_detect_platform_witness :
    (∃ p, p ∈ registry ∧ strIncludes "claude.ai" p.2 = true ∧
      detectPlatform "claude.ai" = p.1) ∧
    detectPlatform "example.com" = "unknown" :=
  ⟨(c9_detect_platform "claude.ai").1 ⟨("claude", "claude.ai"), by decide, by decide⟩,
   (c9_detect_platform "example.com").2 (by decide)⟩

/-! ### C10: the enrichPrompt payload -/

/-- C10: the `/process_interaction` POST issued on an `enrichPrompt` request
carries exactly the request's text and the fixed platform constant
"ChromeExtension_v2". -/
theorem c10_enrich_payload {α : Type} (net : NetResult α) (text : String) :
    (backgroundHandle net { action := "enrichPrompt", text := text }).post =
      some ("http://127.0.0.1:8000/process_interaction",
            { text := text, platform := "ChromeExtension_v2" }) := by
  simp [backgroundHandle]

/-! ### C2: relay result shape -/

/-- C2 counterexample: a non-2xx response with a parseable body makes the
background relay answer `{status:"ok"}` — the claim requires
`{status:"error"}` for a 404. -/
theorem c2_counterexample :
    enrichReply (NetResult.success 404 (some (0 : Nat))) = BgReply.ok 0 ∧
    responseOk 404 = false := by decide

/-- C2 (amended): the background relay's reply is `{status:"ok", data}`
exactly when the network call succeeds AND the body parses — the HTTP
status code is never inspected — and `{status:"error"}` exactly on network
failure or parse failure; the chain is total, so nothing is thrown. -/
theorem c2_relay_result {α : Type} (r : NetResult α) :
    (enrichReply r = BgReply.error ↔
      r = NetResult.failure ∨ ∃ s, r = NetResult.success s none) ∧
    (∀ d, enrichReply r = BgReply.ok d ↔ ∃ s, r = NetResult.success s (some d)) ∧
    (∀ (s : Nat) (p : Option α), enrichReply (NetResult.success s p) =
      enrichReply (NetResult.success 200 p)) := by
  refine ⟨?_, ?_, ?_⟩
  · cases r with
    | failure => simp [enrichReply]
    | success s p =>
      cases p with
      | none => exact ⟨fun _ => Or.inr ⟨s, rfl⟩, fun _ => rfl⟩
      | some d => simp [enrichReply]
  · intro d
    cases r with
    | failure => simp [enrichReply]
    | success s p =>
      cases p with
      | none => simp [enrichReply]
      | some d0 =>
        constructor
        · intro hd
          refine ⟨s, ?_⟩
          cases hd
          rfl
        · rintro ⟨s0, hs⟩
          cases hs
          rfl
  · intro s p
    cases p <;> rfl

/-! ### C6: the background reply channel -/

/-- C6 counterexample: a `pingServer` message keeps the channel open
(listener returns `true`) but the handler body is empty — no reply is ever
delivered, where the claim requires an eventual `{ok}` or `{error}`. -/
theorem c6_counterexample :
    (backgroundHandle (NetResult.success 200 (some (0 : Nat)))
      { action := "pingServer", text := "ping" }).keepOpen = true ∧
    (backgroundHandle (NetResult.success 200 (some (0 : Nat)))
      { action := "pingServer", text := "ping" }).reply = none := by decide

/-- C6 (amended): for `enrichPrompt` the listener returns `true` (keeping
the reply channel open) and eventually delivers a reply that is always of
shape `{ok, data}` or `{error}`; for `pingServer` it also returns `true`
but never delivers any reply — the branch is a stub. -/
theorem c6_reply_channel {α : Type} (net : NetResult α) (text : String) :
    (backgroundHandle net { action := "enrichPrompt", text := text } =
      { keepOpen := true
        post := some ("http://127.0.0.1:8000/process_interaction",
                      { text := text, platform := "ChromeExtension_v2" })
        reply := some (enrichReply net) }) ∧
    (backgroundHandle net { action := "pingServer", text := text } =
      { keepOpen := true, post := none, reply := none }) ∧
    (enrichReply net = BgReply.error ∨ ∃ d, enrichReply net = BgReply.ok d) := by
  refine ⟨by simp [backgroundHandle], by simp [backgroundHandle], ?_⟩
  cases net with
  | failure => exact Or.inl rfl
  | success s p =>
    cases p with
    | none => exact Or.inl rfl
    | some d => exact Or.inr ⟨d, rfl⟩

/-! ### C1: empty snapshots -/

/-- C1 counterexample: on a perplexity page the observer does match `.prose`
nodes, the extractor has no perplexity branch, and a snapshot whose
`messages` sequence is empty is constructed and handed to the relay step —
the claim says such a snapshot is never constructed and that extraction
returns null instead. -/
theorem c1_counterexample :
    observerCallback true perplexityPage perplexityBatch =
      ([Effect.httpPost "http://localhost:5000/ingest" perplexityCtx], none) ∧
    perplexityCtx.messages = [] := by decide

/-- C1 (amended): `extractConversationContext` always returns a snapshot
record (never null); what does hold is that for an unrecognized platform the
observer's selector lookup fails, so no extraction or relay happens — but on
a supported platform with no extracted messages (perplexity always) an
empty-messages snapshot is relayed. -/
theorem c1_unknown_platform_no_relay (page : Page) (muts : List MutationRec)
    (h : detectPlatform page.hostname = "unknown") :
    observerCallback true page muts = ([], none) := by
  unfold observerCallback
  simp [h, selectorFor]

/-- C1 witness: a page on no supported platform relays nothing even for a
batch full of marker nodes. -/
theorem c1_witness :
    observerCallback true unknownPage claudeBatch = ([], none) :=
  c1_unknown_platform_no_relay unknownPage claudeBatch (by decide)

/-! ### C3: the conversation identifier -/

/-- Taking the greedy `[a-zA-Z0-9-]+` run of a list all of whose characters
are in the class returns the whole list. -/
theorem takeIdRun_all (l : List Char) (h : ∀ c ∈ l, idChar c = true) :
    takeIdRun l = l := by
  induction l with
  | nil => rfl
  | cons c cs ih =>
    have hc : idChar c = true := h c (List.mem_cons_self c cs)
    simp [takeIdRun, hc, ih fun x hx => h x (List.mem_cons_of_mem c hx)]

/-- C3 counterexample: at the spec's own end-to-end address
`https://claude.ai/chat/xyz789` the regex `/\/c\/([a-zA-Z0-9-]+)/` does not
match the path `/chat/xyz789`, so `conversationId` is the synthetic
timestamp id, not "xyz789" as claimed. -/
theorem c3_counterexample :
    claudePage.href = "https://claude.ai/chat/xyz789" ∧
    (extractConversationContext claudePage "claude").conversation_id =
      "conv_1700000000000" ∧
    (extractConversationContext claudePage "claude").conversation_id ≠ "xyz789" := by
  decide

/-- C3 (amended): the identifier segment is parsed from the path only when
the path contains a `/c/<segment>` occurrence (the ChatGPT address scheme);
any other path — claude's `/chat/<id>` included — gets the synthetic
identifier `conv_<capture-time millis>`, which is non-null. -/
theorem c3_conversation_id (page : Page) (platform : String) :
    (∀ (d : Char) (ds : List Char), idChar d = true →
      (∀ c ∈ ds, idChar c = true) →
      page.pathname.data = '/' :: 'c' :: '/' :: d :: ds →
      (extractConversationContext page platform).conversation_id =
        String.mk (d :: ds)) ∧
    (findConvId page.pathname.data = none →
      (extractConversationContext page platform).conversation_id =
        "conv_" ++ toString page.nowMs) := by
  constructor
  · intro d ds hd hds hpath
    show conversationIdOf page = String.mk (d :: ds)
    unfold conversationIdOf
    rw [hpath]
    simp [findConvId, hd, takeIdRun_all ds hds]
  · intro hnone
    show conversationIdOf page = "conv_" ++ toString page.nowMs
    unfold conversationIdOf
    rw [hnone]

/-- C3 witness: a ChatGPT-style `/c/abc123` path yields "abc123"; the claude
`/chat/xyz789` path yields the synthetic id. -/
theorem c3_witness :
    (extractConversationContext gptPage "chatgpt").conversation_id =
      String.mk ['a', 'b', 'c', '1', '2', '3'] ∧
    (extractConversationContext claudePage "claude").conversation_id =
      "conv_" ++ toString claudePage.nowMs :=
  ⟨(c3_conversation_id gptPage "chatgpt").1 'a' ['b', 'c', '1', '2', '3']
      (by decide) (by decide) (by decide),
   (c3_conversation_id claudePage "claude").2 (by decide)⟩

/-! ### C4: the capture flag -/

/-- Processing a cons list of nodes whose head is a matching element node
fires the `/ingest` post first. -/
theorem processNodes_cons_match (sel : String) (ctx : Context) (n : DomNode)
    (ns : List DomNode) (sels : List String) (ht : n.nodeType = 1)
    (hmq : n.matchQuery = Except.ok sels) (hc : sels.contains sel = true) :
    processNodes sel ctx (n :: ns) =
      (Effect.httpPost (CORTEX_SERVER ++ "/ingest") ctx ::
        (processNodes sel ctx ns).1,
       (processNodes sel ctx ns).2) := by
  cases n with
  | mk nt mq =>
    simp only [DomNode.nodeType] at ht
    simp only [DomNode.matchQuery] at hmq
    subst ht
    subst hmq
    have hmem : sel ∈ sels := by simpa using hc
    simp [processNodes, hmem]

/-- When capture is on and the platform has a selector, the callback is the
record-by-record processing of the batch with the extracted snapshot. -/
theorem observerCallback_some_selector (page : Page) (muts : List MutationRec)
    (sel : String) (hsel : selectorFor (detectPlatform page.hostname) = some sel) :
    observerCallback true page muts =
      processMutationRecs sel
        (extractConversationContext page (detectPlatform page.hostname)) muts := by
  simp [observerCallback, hsel]

/-- C4: while the flag is off the callback fires nothing for any batch; the
listener sets the flag to the message's `enabled` exactly on "toggle"
messages and acknowledges, leaves it untouched (with no acknowledgment) on
every other action; and once a "toggle true" has been processed, a batch
whose first added node is a matching element fires a relay again. -/
theorem c4_capture_flag (page : Page) (muts : List MutationRec) :
    observerCallback false page muts = ([], none) ∧
    (∀ (st : Bool) (req : CtrlRequest), req.action = "toggle" →
      handleControlMessage st req = (req.enabled, some { status := "ok" })) ∧
    (∀ (st : Bool) (req : CtrlRequest), req.action ≠ "toggle" →
      handleControlMessage st req = (st, none)) ∧
    (∀ (sel : String) (sels : List String) (n : DomNode) (ns : List DomNode)
        (ms : List MutationRec),
      selectorFor (detectPlatform page.hostname) = some sel →
      n.nodeType = 1 → n.matchQuery = Except.ok sels → sels.contains sel = true →
      (observerCallback
          (handleControlMessage false { action := "toggle", enabled := true }).1
          page ({ addedNodes := n :: ns } :: ms)).1 ≠ []) := by
  refine ⟨rfl, ?_, ?_, ?_⟩
  · intro st req hreq
    simp [handleControlMessage, hreq]
  · intro st req hreq
    simp [handleControlMessage, hreq]
  · intro sel sels n ns ms hsel ht hmq hc
    show (observerCallback true page ({ addedNodes := n :: ns } :: ms)).1 ≠ []
    rw [observerCallback_some_selector page _ sel hsel]
    simp only [processMutationRecs]
    rw [processNodes_cons_match sel _ n ns sels ht hmq hc]
    cases (processNodes sel (extractConversationContext page
        (detectPlatform page.hostname)) ns).2 <;> simp

/-- C4 witness: the claude fixture batch relays nothing while disabled and
relays again right after a "toggle true" control message. -/
theorem c4_witness :
    observerCallback false claudePage claudeBatch = ([], none) ∧
    (observerCallback
        (handleControlMessage false { action := "toggle", enabled := true }).1
        claudePage claudeBatch).1 ≠ [] :=
  ⟨(c4_capture_flag claudePage claudeBatch).1,
   (c4_capture_flag claudePage claudeBatch).2.2.2 claudeSel [claudeSel]
      { nodeType := 1, matchQuery := Except.ok [claudeSel] } [] []
      (by decide) rfl rfl (by decide)⟩

/-! ### C5: who issues the capture POST -/

/-- Every effect of node processing is the direct `/ingest` post of the
snapshot. -/
theorem mem_processNodes (sel : String) (ctx : Context) :
    ∀ (ns : List DomNode) (e : Effect), e ∈ (processNodes sel ctx ns).1 →
      e = Effect.httpPost (CORTEX_SERVER ++ "/ingest") ctx := by
  intro ns
  induction ns with
  | nil => intro e he; simp [processNodes] at he
  | cons n ns ih =>
    intro e he
    by_cases ht : n.nodeType = 1
    · rcases hmq : n.matchQuery with e0 | sels
      · simp [processNodes, ht, hmq] at he
      · by_cases hc : sel ∈ sels
        · simp [processNodes, ht, hmq, hc] at he
          rcases he with he | he
          · exact he
          · exact ih e he
        · simp [processNodes, ht, hmq, hc] at he
          exact ih e he
    · simp [processNodes, ht] at he
      exact ih e he

/-- Every effect of batch processing is the direct `/ingest` post of the
snapshot. -/
theorem mem_processMutationRecs (sel : String) (ctx : Context) :
    ∀ (ms : List MutationRec) (e : Effect), e ∈ (processMutationRecs sel ctx ms).1 →
      e = Effect.httpPost (CORTEX_SERVER ++ "/ingest") ctx := by
  intro ms
  induction ms with
  | nil => intro e he; simp [processMutationRecs] at he
  | cons m ms ih =>
    intro e he
    rcases h2 : (processNodes sel ctx m.addedNodes).2 with _ | err
    · simp [processMutationRecs, h2] at he
      rcases he with he | he
      · exact mem_processNodes sel ctx m.addedNodes e he
      · exact ih e he
    · simp [processMutationRecs, h2] at he
      exact mem_processNodes sel ctx m.addedNodes e he

/-- C5 counterexample: in the end-to-end scenario the page-context watcher
itself fires the single HTTP POST to `/ingest` — every effect of the
callback is a direct `fetch` from the content script and none is a
message-passing hop to the background Relay Client, contrary to the claim
that only background code touches the network for captures. -/
theorem c5_counterexample :
    observerCallback true claudePage claudeBatch =
      ([Effect.httpPost "http://localhost:5000/ingest" claudeCtx], none) ∧
    (observerCallback true claudePage claudeBatch).1.all isHttpPostEffect = true := by
  decide

/-- C5 (amended): every network effect the observer callback fires is the
content script's own direct POST of the extracted snapshot to
`CORTEX_SERVER ++ "/ingest"` — no runtime message is sent for captures —
and the background listener ignores every action other than "enrichPrompt"
and "pingServer", so no capture request ever reaches it. -/
theorem c5_direct_post (page : Page) (muts : List MutationRec) :
    (∀ e, e ∈ (observerCallback true page muts).1 →
      e = Effect.httpPost (CORTEX_SERVER ++ "/ingest")
            (extractConversationContext page (detectPlatform page.hostname))) ∧
    (∀ (net : NetResult Nat) (req : BgRequest),
      req.action ≠ "enrichPrompt" → req.action ≠ "pingServer" →
      backgroundHandle net req = { keepOpen := false, post := none, reply := none }) := by
  constructor
  · intro e he
    rcases hsel : selectorFor (detectPlatform page.hostname) with _ | sel
    · rw [show observerCallback true page muts = ([], none) by
        simp [observerCallback, hsel]] at he
      simp at he
    · rw [observerCallback_some_selector page muts sel hsel] at he
      exact mem_processMutationRecs sel _ muts e he
  · intro net req h1 h2
    simp [backgroundHandle, h1, h2]

/-- C5 witness: a "capture"-tagged runtime message would be ignored by the
background listener. -/
theorem c5_witness :
    backgroundHandle (NetResult.failure : NetResult Nat)
        { action := "capture", text := "snapshot" } =
      { keepOpen := false, post := none, reply := none } :=
  (c5_direct_post claudePage claudeBatch).2 NetResult.failure
    { action := "capture", text := "snapshot" } (by decide) (by decide)

/-! ### C7: role derivation -/

/-- C7 counterexample: a chatgpt message element whose author-role attribute
is "system" is pushed with role "system" verbatim — outside the claimed
`user`/`assistant`/`unknown` enum — and a claude sender "Robot" (vocabulary
the claim calls unrecognized) is mapped to "assistant", not "unknown". -/
theorem c7_counterexample :
    (extractConversationContext gptPage "chatgpt").messages =
      [{ role := "system", content := "boot" }] ∧
    ("system" ≠ "user" ∧ "system" ≠ "assistant" ∧ "system" ≠ "unknown") ∧
    extractClaudeMessages [{ senderText := some "Robot", messageText := some "Hi" }] =
      [{ role := "assistant", content := "Hi" }] := by
  decide

/-- C7 (amended): claude-branch roles are always exactly "user" (sender
text containing "you" after lowercasing) or "assistant" (everything else,
unrecognized vocabulary and missing senders included); chatgpt-branch roles
are the verbatim attribute value, not normalized into any enum; in both
branches elements whose derived content is empty are skipped, so no
extracted message has empty content. -/
theorem c7_roles (page : Page) :
    (∀ m, m ∈ (extractConversationContext page "claude").messages →
      m.role = "user" ∨ m.role = "assistant") ∧
    (∀ m, m ∈ (extractConversationContext page "chatgpt").messages →
      ∃ el, el ∈ page.chatgptEls ∧ m.role = el.authorRole) ∧
    (∀ platform m, m ∈ (extractConversationContext page platform).messages →
      m.content ≠ "") := by
  refine ⟨?_, ?_, ?_⟩
  · intro m hm
    have hm2 : m ∈ extractClaudeMessages page.claudeEls := hm
    rw [extractClaudeMessages, List.mem_filterMap] at hm2
    obtain ⟨el, _, heq⟩ := hm2
    simp only at heq
    rcases hcond : decide (el.messageText.getD "" ≠ "") with _ | _
    · rw [if_neg (of_decide_eq_false hcond)] at heq
      cases heq
    · rw [if_pos (of_decide_eq_true hcond)] at heq
      cases heq
      by_cases hyou : strIncludes (claudeRoleOf el.senderText) "you" = true
      · exact Or.inl (by simp [hyou])
      · exact Or.inr (by simp [hyou])
  · intro m hm
    have hm2 : m ∈ extractChatGPTMessages page.chatgptEls := hm
    rw [extractChatGPTMessages, List.mem_filterMap] at hm2
    obtain ⟨el, hel, heq⟩ := hm2
    simp only at heq
    rcases hcond : decide (el.markdownText.getD "" ≠ "") with _ | _
    · rw [if_neg (of_decide_eq_false hcond)] at heq
      cases heq
    · rw [if_pos (of_decide_eq_true hcond)] at heq
      cases heq
      exact ⟨el, hel, rfl⟩
  · intro platform m hm
    have hm2 : m ∈ extractMessages page platform := hm
    unfold extractMessages at hm2
    by_cases h1 : platform = "chatgpt"
    · rw [if_pos h1, extractChatGPTMessages, List.mem_filterMap] at hm2
      obtain ⟨el, _, heq⟩ := hm2
      simp only at heq
      rcases hcond : decide (el.markdownText.getD "" ≠ "") with _ | _
      · rw [if_neg (of_decide_eq_false hcond)] at heq
        cases heq
      · rw [if_pos (of_decide_eq_true hcond)] at heq
        cases heq
        exact of_decide_eq_true hcond
    · rw [if_neg h1] at hm2
      by_cases h2 : platform = "claude"
      · rw [if_pos h2, extractClaudeMessages, List.mem_filterMap] at hm2
        obtain ⟨el, _, heq⟩ := hm2
        simp only at heq
        rcases hcond : decide (el.messageText.getD "" ≠ "") with _ | _
        · rw [if_neg (of_decide_eq_false hcond)] at heq
          cases heq
        · rw [if_pos (of_decide_eq_true hcond)] at heq
          cases heq
          exact of_decide_eq_true hcond
      · rw [if_neg h2] at hm2
        cases hm2

/-- C7 witness: the claude fixture's one message has role "assistant" and
nonempty content. -/
theorem c7_witness :
    (({ role := "assistant", content := "Hello world" } : Message).role = "user" ∨
      ({ role := "assistant", content := "Hello world" } : Message).role = "assistant") ∧
    ({ role := "assistant", content := "Hello world" } : Message).content ≠ "" :=
  ⟨(c7_roles claudePage).1 { role := "assistant", content := "Hello world" } (by decide),
   (c7_roles claudePage).2.2 "claude" { role := "assistant", content := "Hello world" }
      (by decide)⟩

/-! ### C8: exception handling in the observer callback -/

/-- C8 counterexample: a marker-matching exception in the first mutation
record is not caught anywhere in the callback — it escapes (the second
component is `some`), and the later record of the same delivery, which on
its own would have produced a relay, yields nothing. -/
theorem c8_counterexample :
    observerCallback true claudePage faultyBatch = ([], some "malformed DOM") ∧
    (observerCallback true claudePage claudeBatch).1 ≠ [] := by
  decide

/-- C8 (amended): the observer callback contains no exception handler: a
marker-matching fault on the first added node propagates out of the
callback unhandled and aborts the processing of every remaining mutation
record of that delivery. (Later deliveries are unaffected only because the
host's observer machinery invokes the callback afresh per batch, which the
model reflects in the callback being a function of its own batch alone.) -/
theorem c8_exception_escapes (page : Page) (sel : String) (e : String)
    (ns : List DomNode) (ms : List MutationRec)
    (hsel : selectorFor (detectPlatform page.hostname) = some sel) :
    observerCallback true page
        ({ addedNodes := { nodeType := 1, matchQuery := Except.error e } :: ns } :: ms) =
      ([], some e) := by
  rw [observerCallback_some_selector page _ sel hsel]
  simp [processMutationRecs, processNodes]

/-- C8 witness: a concrete throwing node on the claude page. -/
theorem c8_witness :
    observerCallback true claudePage
        [{ addedNodes := [{ nodeType := 1, matchQuery := Except.error "boom" }] }] =
      ([], some "boom") :=
  c8_exception_escapes claudePage claudeSel "boom" [] [] (by decide)

end DimensionalCortex
